import Mathlib

/-!
Shallow embedding of src/sheep_feeding_optimizer.py over exact rationals.

The script builds a mixed-integer linear program that selects a minimum-cost
daily supplement ration for sheep on pasture.  All numeric data and every
constraint of the PuLP model is translated here over `ℚ`; the feasible set of
the model is the predicate `Feasible`, and the objective is `objective`.
Dictionary lookups that would raise `KeyError` in Python, and the division by
the stocking rate that would raise `ZeroDivisionError`, are modelled with
`Option` (`none` = the script dies before the model is ever constructed).
-/

namespace SheepFeeding

/-- One row of the `sheep_nutrition_data` table (lines 7-15 of the source). -/
structure NutritionStage where
  weeks : ℕ
  dm_intake : ℚ
  tdn : ℚ
  protein : ℚ
  tdn_pct : ℚ
  protein_pct : ℚ
deriving DecidableEq

/-- One row of the `forage_quality` table (lines 32-40 of the source). -/
structure ForageStage where
  protein : ℚ
  fiber : ℚ
  tdn : ℚ
  dm : ℚ
deriving DecidableEq

/-- One row of the `supplements` table (lines 71-90 of the source). -/
structure Feed where
  cost : ℚ
  protein : ℚ
  tdn : ℚ
  dm : ℚ
  min_intake : ℚ
  max_intake : ℚ
  is_block : Bool
deriving DecidableEq

/-- The `sheep_nutrition_data` dictionary, keyed by stage name. -/
def sheep_nutrition_data : List (String × NutritionStage) :=
  [("Maintenance_Single", ⟨16, 2.6, 1.5, 0.25, 57.69, 9.62⟩),
   ("Maintenance_Twin", ⟨14, 2.6, 1.5, 0.25, 57.69, 9.62⟩),
   ("Flushing", ⟨5, 4.0, 2.3, 0.36, 57.50, 9.00⟩),
   ("Nonlactating", ⟨15, 3.1, 1.7, 0.29, 54.84, 9.35⟩),
   ("Last_4_Weeks_Gestation", ⟨4, 4.0, 2.3, 0.42, 57.50, 10.50⟩),
   ("First_6_Weeks_Lactation_Single", ⟨8, 5.5, 3.6, 0.73, 65.45, 13.27⟩),
   ("First_6_Weeks_Lactation_Twin", ⟨8, 6.2, 4.0, 0.92, 64.52, 14.84⟩)]

/-- The `forage_quality` dictionary, keyed by maturity name. -/
def forage_quality : List (String × ForageStage) :=
  [("Early_vegetative", ⟨18, 24, 60, 25⟩),
   ("Late_vegetative", ⟨15, 25, 58, 30⟩),
   ("Early_flowering", ⟨15, 26, 56, 35⟩),
   ("Late_flowering", ⟨10, 29, 50, 45⟩),
   ("Mature", ⟨6, 33, 40, 75⟩),
   ("Dry", ⟨5, 34, 34, 90⟩),
   ("Dry_leached", ⟨3, 35, 30, 92⟩)]

/-- Python dictionary lookup `sheep_nutrition_data[k]`; `none` models `KeyError`. -/
def lookupNutrition (k : String) : Option NutritionStage :=
  sheep_nutrition_data.lookup k

/-- Python dictionary lookup `forage_quality[k]`; `none` models `KeyError`. -/
def lookupForage (k : String) : Option ForageStage :=
  forage_quality.lookup k

/-- Hardcoded stage selection (line 18 of the source). -/
def current_nutrition_stage : String := "Last_4_Weeks_Gestation"

/-- Hardcoded forage selection (line 43 of the source). -/
def current_forage_stage : String := "Dry"

/-- The nutrition row selected by the hardcoded stage key. -/
def last4 : NutritionStage := ⟨4, 4.0, 2.3, 0.42, 57.50, 10.50⟩

/-- The forage row selected by the hardcoded forage key. -/
def dry : ForageStage := ⟨5, 34, 34, 90⟩

/-- Line 54: `available_forage_per_acre = 2000`. -/
def available_forage_per_acre : ℚ := 2000

/-- Line 55: `sheep_per_acre = 90`, the stocking rate. -/
def sheep_per_acre : ℚ := 90

/-- Line 58: `min(daily_dmi_limit, (available_forage_per_acre * forage_dm_pct / 100) / sheep_per_acre)`. -/
def max_forage_per_sheep (daily_dmi_limit available forage_dm_pct rate : ℚ) : ℚ :=
  min daily_dmi_limit (available * forage_dm_pct / 100 / rate)

/-- Line 59: `daily_dmi_limit * 0.5 if daily_dmi_limit * 0.5 <= max_forage_per_sheep else max_forage_per_sheep`. -/
def min_forage_per_sheep (daily_dmi_limit maxF : ℚ) : ℚ :=
  if daily_dmi_limit * 0.5 ≤ maxF then daily_dmi_limit * 0.5 else maxF

/-- Line 65: `total_protein_required_lbs = (protein_requirement_pct/100) * daily_dmi_limit`. -/
def total_protein_required_lbs (s : NutritionStage) : ℚ :=
  s.protein_pct / 100 * s.dm_intake

/-- Line 66: one third of the total protein requirement. -/
def max_protein_from_supplement_lbs (s : NutritionStage) : ℚ :=
  total_protein_required_lbs s / 3

/-- Line 67: `range_pellet_protein_pct = 33`. -/
def range_pellet_protein_pct : ℚ := 33

/-- Line 68: `max_range_pellet_intake = max_protein_from_supplement_lbs / (range_pellet_protein_pct/100)`. -/
def max_range_pellet_intake (s : NutritionStage) : ℚ :=
  max_protein_from_supplement_lbs s / (range_pellet_protein_pct / 100)

/-- The keys of the `supplements` dictionary (lines 71-90 of the source). -/
inductive FeedName where
  | Corn
  | Soybean_Meal
  | Wheat_Middlings
  | Molasses
  | Limestone
  | Purina_Accuration
  | Cascade_Pellets
  | Purina_Stocker_Grower
  | Accuration_Block_Concord
  | Rangeland_Tub_Wilco
  | Accuration_Block_Wilco
  | Rangeland_Allstock_Tub
  | Purina_Accuration_Range_Pellet
deriving DecidableEq, Fintype

/-- The `supplements` dictionary.  The range pellet ceiling is the derived
`max_range_pellet_intake`, which depends on the selected nutrition stage, so
the table is parameterized by that stage (the script computes it from the
hardcoded stage before building the dictionary). -/
def supplements (s : NutritionStage) : FeedName → Feed
  | .Corn => ⟨0.25, 9, 90, 88, 0, 3.0, false⟩
  | .Soybean_Meal => ⟨0.30, 44, 80, 89, 0, 2.0, false⟩
  | .Wheat_Middlings => ⟨0.13, 16, 77, 89, 0, 2.5, false⟩
  | .Molasses => ⟨0.20, 4, 75, 75, 0.05, 0.5, false⟩
  | .Limestone => ⟨0.05, 0, 0, 99, 0, 0.1, false⟩
  | .Purina_Accuration => ⟨129.99 / 200, 25, 85, 90, 0, 1.0, true⟩
  | .Cascade_Pellets => ⟨11.49 / 50, 14.5, 68, 90, 0, 2.0, false⟩
  | .Purina_Stocker_Grower => ⟨17.99 / 50, 14, 68, 90, 0, 2.0, false⟩
  | .Accuration_Block_Concord => ⟨129.99 / 200, 25, 85, 96, 0, 1.0, true⟩
  | .Rangeland_Tub_Wilco => ⟨104.99 / 125, 23, 85, 96, 0, 1.0, true⟩
  | .Accuration_Block_Wilco => ⟨149.99 / 200, 25, 85, 96, 0, 1.0, true⟩
  | .Rangeland_Allstock_Tub => ⟨99.99 / 125, 15, 85, 96, 0, 1.0, true⟩
  | .Purina_Accuration_Range_Pellet => ⟨14.50 / 50, 33, 85, 90, 0, max_range_pellet_intake s, true⟩

/-- The iteration order of the `supplements` dictionary (Python dictionaries
iterate in insertion order, the order of lines 73-89). -/
def allFeeds : List FeedName :=
  [.Corn, .Soybean_Meal, .Wheat_Middlings, .Molasses, .Limestone,
   .Purina_Accuration, .Cascade_Pellets, .Purina_Stocker_Grower,
   .Accuration_Block_Concord, .Rangeland_Tub_Wilco, .Accuration_Block_Wilco,
   .Rangeland_Allstock_Tub, .Purina_Accuration_Range_Pellet]

/-- A point of the model: the forage variable, one intake variable per
supplement, and one indicator variable per feed (only the block feeds
actually constrain theirs). -/
structure Assignment where
  forage_intake : ℚ
  intake : FeedName → ℚ
  used : FeedName → ℚ

/-- The block feeds: the dictionary entries with `is_block = True` (line 98). -/
def blockFeeds (tbl : FeedName → Feed) : List FeedName :=
  allFeeds.filter fun f => (tbl f).is_block

/-- The feasible set of the PuLP model (lines 62, 93-133 of the source): the
variable bounds, the block linking and cardinality constraints, the exact-DMI
equality `Exact_DMI`, the protein and TDN requirements `Protein_Requirement`
and `TDN_Requirement`, and the dry-matter limit `DMI_Limit`. -/
def Feasible (s : NutritionStage) (fq : ForageStage) (available rate : ℚ)
    (tbl : FeedName → Feed) (a : Assignment) : Prop :=
  min_forage_per_sheep s.dm_intake (max_forage_per_sheep s.dm_intake available fq.dm rate)
      ≤ a.forage_intake ∧
  a.forage_intake ≤ max_forage_per_sheep s.dm_intake available fq.dm rate ∧
  (∀ f, (tbl f).min_intake ≤ a.intake f ∧ a.intake f ≤ (tbl f).max_intake) ∧
  (∀ f, (tbl f).is_block = true → a.used f = 0 ∨ a.used f = 1) ∧
  (∀ f, (tbl f).is_block = true → a.intake f ≤ (tbl f).max_intake * a.used f) ∧
  ((blockFeeds tbl).map a.used).sum ≤ 1 ∧
  a.forage_intake + (allFeeds.map a.intake).sum = s.dm_intake ∧
  (allFeeds.map fun f => (tbl f).protein / 100 * a.intake f).sum
      + a.forage_intake * fq.protein / 100 ≥ s.protein_pct / 100 * s.dm_intake ∧
  (allFeeds.map fun f => (tbl f).tdn / 100 * a.intake f).sum
      + a.forage_intake * fq.tdn / 100 ≥ s.tdn_pct / 100 * s.dm_intake ∧
  (allFeeds.map fun f => (tbl f).dm / 100 * a.intake f).sum
      + a.forage_intake * (fq.dm / 100) ≤ s.dm_intake

/-- The objective `Total_Cost` (line 109 of the source): supplement cost only,
the forage variable does not appear. -/
def objective (tbl : FeedName → Feed) (a : Assignment) : ℚ :=
  (allFeeds.map fun f => (tbl f).cost * a.intake f).sum

/-- Line 166: `daily_forage_all_sheep = forage_intake.value() * sheep_per_acre`. -/
def daily_forage_all_sheep (forage_val rate : ℚ) : ℚ :=
  forage_val * rate

/-- Line 167: `total_available_forage = available_forage_per_acre * forage_dm_pct/100`. -/
def total_available_forage (available forage_dm_pct : ℚ) : ℚ :=
  available * forage_dm_pct / 100

/-- Result of the pasture-duration computation; `infinite` is the sentinel the
script produces as `float(\x27inf\x27)`. -/
inductive PastureDays where
  | days (d : ℚ)
  | infinite
deriving DecidableEq

/-- Line 168: `total_available_forage / daily_forage_all_sheep if daily_forage_all_sheep > 0 else float(\x27inf\x27)`. -/
def days_on_pasture (total daily : ℚ) : PastureDays :=
  if daily > 0 then PastureDays.days (total / daily) else PastureDays.infinite

/-- The pre-solver part of the script as a pipeline, for a given feed table:
look up the two hardcoded keys (a missing key is `KeyError`, modelled `none`),
compute the forage bounds (a zero stocking rate is `ZeroDivisionError` at
line 58, modelled `none`), and build the decision variables.  The result is
the forage bound pair together with the per-feed bound pairs handed to the
solver; the script performs no further validation of any kind. -/
def build_model (stageKey forageKey : String) (available rate : ℚ)
    (tbl : FeedName → Feed) : Option ((ℚ × ℚ) × (FeedName → ℚ × ℚ)) :=
  match lookupNutrition stageKey, lookupForage forageKey with
  | some s, some fq =>
      if rate = 0 then none
      else
        some ((min_forage_per_sheep s.dm_intake (max_forage_per_sheep s.dm_intake available fq.dm rate),
               max_forage_per_sheep s.dm_intake available fq.dm rate),
              fun f => ((tbl f).min_intake, (tbl f).max_intake))
  | _, _ => none

/-- A feed table identical to the hardcoded one except that the Molasses
minimum intake (2.0) exceeds its maximum intake (0.5): a configuration the
spec says must be rejected before model construction. -/
def badSupplements : FeedName → Feed
  | .Molasses => ⟨0.20, 4, 75, 75, 2.0, 0.5, false⟩
  | f => supplements last4 f

/-- A feasible point of the model at the hardcoded configuration, using no
block feed. -/
def witnessA : Assignment where
  forage_intake := 2
  intake := fun f => match f with
    | .Corn => 1.45
    | .Soybean_Meal => 0.5
    | .Molasses => 0.05
    | _ => 0
  used := fun _ => 0

/-- The same point with a different forage intake (used to compare objective
values that should not depend on forage). -/
def witnessA2 : Assignment :=
  { witnessA with forage_intake := 3 }

/-- A feasible point of the model at the hardcoded configuration that uses
the range-pellet block feed. -/
def witnessB : Assignment where
  forage_intake := 2
  intake := fun f => match f with
    | .Corn => 1.4
    | .Soybean_Meal => 0.25
    | .Molasses => 0.05
    | .Purina_Accuration_Range_Pellet => 0.3
    | _ => 0
  used := fun f => match f with
    | .Purina_Accuration_Range_Pellet => 1
    | _ => 0

lemma mem_allFeeds (f : FeedName) : f ∈ allFeeds := by
  cases f <;> simp [allFeeds]

lemma block_min_zero (s : NutritionStage) (f : FeedName)
    (hf : (supplements s f).is_block = true) :
    (supplements s f).min_intake = 0 := by
  cases f <;> simp_all [supplements]

lemma pair_le_sum {l : List FeedName} (u : FeedName → ℚ)
    (hnn : ∀ x ∈ l, 0 ≤ u x) {f g : FeedName} (hf : f ∈ l) (hg : g ∈ l)
    (hfg : f ≠ g) : u f + u g ≤ (l.map u).sum := by
  induction l with
  | nil => simp at hf
  | cons b t ih =>
    rw [List.map_cons, List.sum_cons]
    have hnt : ∀ x ∈ t, 0 ≤ u x := fun x hx => hnn x (List.mem_cons_of_mem b hx)
    have hmem : ∀ x ∈ t, u x ≤ (t.map u).sum := by
      intro x hx
      apply List.single_le_sum
      · intro y hy
        obtain ⟨z, hz, rfl⟩ := List.mem_map.mp hy
        exact hnt z hz
      · exact List.mem_map_of_mem u hx
    have hb : 0 ≤ u b := hnn b (List.mem_cons_self b t)
    rcases List.mem_cons.mp hf with rfl | hft
    · rcases List.mem_cons.mp hg with rfl | hgt
      · exact absurd rfl hfg
      · have hgle := hmem g hgt
        linarith
    · rcases List.mem_cons.mp hg with rfl | hgt
      · have hfle := hmem f hft
        linarith
      · have hrec := ih hnt hft hgt
        linarith

lemma witnessA_feasible :
    Feasible last4 dry 2000 90 (supplements last4) witnessA := by
  refine ⟨?_, ?_, ?_, ?_, ?_, ?_, ?_, ?_, ?_, ?_⟩
  · norm_num [min_forage_per_sheep, max_forage_per_sheep, min_def, last4, dry, witnessA]
  · norm_num [max_forage_per_sheep, min_def, last4, dry, witnessA]
  · intro f
    cases f <;>
      norm_num [supplements, witnessA, max_range_pellet_intake,
        max_protein_from_supplement_lbs, total_protein_required_lbs,
        range_pellet_protein_pct, last4]
  · intro f hf
    left
    rfl
  · intro f hf
    cases f <;>
      norm_num [supplements, witnessA, max_range_pellet_intake,
        max_protein_from_supplement_lbs, total_protein_required_lbs,
        range_pellet_protein_pct, last4] at hf ⊢
  · norm_num [blockFeeds, allFeeds, supplements, witnessA, List.filter]
  · norm_num [allFeeds, witnessA, last4]
  · norm_num [allFeeds, supplements, witnessA, last4, dry]
  · norm_num [allFeeds, supplements, witnessA, last4, dry]
  · norm_num [allFeeds, supplements, witnessA, last4, dry]

lemma witnessB_feasible :
    Feasible last4 dry 2000 90 (supplements last4) witnessB := by
  refine ⟨?_, ?_, ?_, ?_, ?_, ?_, ?_, ?_, ?_, ?_⟩
  · norm_num [min_forage_per_sheep, max_forage_per_sheep, min_def, last4, dry, witnessB]
  · norm_num [max_forage_per_sheep, min_def, last4, dry, witnessB]
  · intro f
    cases f <;>
      norm_num [supplements, witnessB, max_range_pellet_intake,
        max_protein_from_supplement_lbs, total_protein_required_lbs,
        range_pellet_protein_pct, last4]
  · intro f hf
    cases f <;> simp [witnessB]
  · intro f hf
    cases f <;>
      norm_num [supplements, witnessB, max_range_pellet_intake,
        max_protein_from_supplement_lbs, total_protein_required_lbs,
        range_pellet_protein_pct, last4] at hf ⊢
  · norm_num [blockFeeds, allFeeds, supplements, witnessB, List.filter]
  · norm_num [allFeeds, witnessB, last4]
  · norm_num [allFeeds, supplements, witnessB, last4, dry]
  · norm_num [allFeeds, supplements, witnessB, last4, dry]
  · norm_num [allFeeds, supplements, witnessB, last4, dry]

/-- Claim C1: the model carries the equality constraint `Exact_DMI`
(line 125), so every feasible point has forage intake plus the sum of all
supplement intakes exactly equal to the dry-matter-intake limit of the
selected stage, not merely at most it. -/
theorem C1_exact_dmi (s : NutritionStage) (fq : ForageStage) (available rate : ℚ)
    (tbl : FeedName → Feed) (a : Assignment)
    (h : Feasible s fq available rate tbl a) :
    a.forage_intake + (allFeeds.map a.intake).sum = s.dm_intake :=
  h.2.2.2.2.2.2.1

theorem C1_exact_dmi_witness :
    witnessA.forage_intake + (allFeeds.map witnessA.intake).sum = last4.dm_intake :=
  C1_exact_dmi last4 dry 2000 90 (supplements last4) witnessA witnessA_feasible

/-- Claim C2: the forage intake upper bound of line 58 equals
min(stage.maxDMI, availableForagePerAcre × (dmPct/100) / stockingRate), and
at the hardcoded configuration (stage Last_4_Weeks_Gestation, forage Dry,
2000 lbs/acre, 90 sheep/acre) it equals 4.0. -/
theorem C2_forage_upper_bound :
    (∀ daily_dmi_limit available forage_dm_pct rate : ℚ,
      max_forage_per_sheep daily_dmi_limit available forage_dm_pct rate
        = min daily_dmi_limit (available * (forage_dm_pct / 100) / rate)) ∧
    max_forage_per_sheep last4.dm_intake available_forage_per_acre dry.dm sheep_per_acre = 4 := by
  constructor
  · intro d av dm r
    unfold max_forage_per_sheep
    congr 1
    ring
  · norm_num [max_forage_per_sheep, min_def, last4, dry,
      available_forage_per_acre, sheep_per_acre]

/-- Claim C3: for every nutrition stage, the ceiling of the range-pellet
feed equals ((requiredProteinPct/100 × maxDMI) / 3) / (proteinPct/100) where
proteinPct is the protein percentage carried by that feed (33), i.e. the
intake at which the pellet supplies exactly one third of the total protein
requirement (lines 64-68 and 89). -/
theorem C3_range_pellet_bound (s : NutritionStage) :
    (supplements s FeedName.Purina_Accuration_Range_Pellet).max_intake
        = s.protein_pct / 100 * s.dm_intake / 3
          / ((supplements s FeedName.Purina_Accuration_Range_Pellet).protein / 100) ∧
    (supplements s FeedName.Purina_Accuration_Range_Pellet).protein / 100
        * (supplements s FeedName.Purina_Accuration_Range_Pellet).max_intake
      = total_protein_required_lbs s / 3 := by
  constructor
  · simp [supplements, max_range_pellet_intake, max_protein_from_supplement_lbs,
      total_protein_required_lbs, range_pellet_protein_pct]
  · show (33 : ℚ) / 100 * max_range_pellet_intake s = total_protein_required_lbs s / 3
    rw [max_range_pellet_intake, max_protein_from_supplement_lbs, range_pellet_protein_pct,
      mul_comm, div_mul_cancel₀]
    norm_num

/-- Claim C4: with the block-exclusivity machinery of lines 97-106 (binary
indicators, linking constraints, cardinality constraint), any feasible point
in which some block feed has positive intake has every other block feed at
zero intake with its indicator at zero. -/
theorem C4_block_exclusivity (s : NutritionStage) (fq : ForageStage)
    (available rate : ℚ) (a : Assignment) (f g : FeedName)
    (h : Feasible s fq available rate (supplements s) a)
    (hf : (supplements s f).is_block = true)
    (hg : (supplements s g).is_block = true)
    (hfg : f ≠ g) (hpos : 0 < a.intake f) :
    a.intake g = 0 ∧ a.used g = 0 := by
  obtain ⟨-, -, hbounds, hbin, hlink, hsum, -, -, -, -⟩ := h
  have hf1 : a.used f = 1 := by
    rcases hbin f hf with h0 | h1
    · exfalso
      have hlf := hlink f hf
      rw [h0, mul_zero] at hlf
      linarith
    · exact h1
  have hnn : ∀ x ∈ blockFeeds (supplements s), 0 ≤ a.used x := by
    intro x hx
    rcases hbin x (List.mem_filter.mp hx).2 with h0 | h0 <;> simp [h0]
  have hfm : f ∈ blockFeeds (supplements s) :=
    List.mem_filter.mpr ⟨mem_allFeeds f, hf⟩
  have hgm : g ∈ blockFeeds (supplements s) :=
    List.mem_filter.mpr ⟨mem_allFeeds g, hg⟩
  have hpair := pair_le_sum a.used hnn hfm hgm hfg
  have hg0 : a.used g = 0 := by
    rcases hbin g hg with h0 | h1
    · exact h0
    · exfalso
      rw [hf1, h1] at hpair
      linarith
  refine ⟨?_, hg0⟩
  have hlg := hlink g hg
  rw [hg0, mul_zero] at hlg
  have hbg := (hbounds g).1
  rw [block_min_zero s g hg] at hbg
  linarith

theorem C4_block_exclusivity_witness :
    witnessB.intake FeedName.Purina_Accuration = 0 ∧
    witnessB.used FeedName.Purina_Accuration = 0 :=
  C4_block_exclusivity last4 dry 2000 90 witnessB
    FeedName.Purina_Accuration_Range_Pellet FeedName.Purina_Accuration
    witnessB_feasible rfl rfl (by simp) (by norm_num [witnessB])

/-- Claim C5: the objective `Total_Cost` of line 109 sums cost × intake over
the supplement feeds only; the forage variable does not appear, so two
points with the same supplement intakes have the same objective value no
matter their forage intakes. -/
theorem C5_objective_forage_free (tbl : FeedName → Feed) (a b : Assignment)
    (h : ∀ f, a.intake f = b.intake f) :
    objective tbl a = objective tbl b := by
  unfold objective
  have hfun : (fun f => (tbl f).cost * a.intake f)
      = fun f => (tbl f).cost * b.intake f := by
    funext f
    rw [h f]
  rw [hfun]

theorem C5_objective_forage_free_witness :
    objective (supplements last4) witnessA = objective (supplements last4) witnessA2 :=
  C5_objective_forage_free (supplements last4) witnessA witnessA2 fun _ => rfl

/-- Claim C6: the forage lower bound of line 59 equals
min(stage.maxDMI × 0.5, forage upper bound) and hence never exceeds the
forage upper bound, whatever the pasture context. -/
theorem C6_min_forage (daily_dmi_limit available forage_dm_pct rate : ℚ) :
    min_forage_per_sheep daily_dmi_limit
        (max_forage_per_sheep daily_dmi_limit available forage_dm_pct rate)
      = min (daily_dmi_limit * 0.5)
        (max_forage_per_sheep daily_dmi_limit available forage_dm_pct rate) ∧
    min_forage_per_sheep daily_dmi_limit
        (max_forage_per_sheep daily_dmi_limit available forage_dm_pct rate)
      ≤ max_forage_per_sheep daily_dmi_limit available forage_dm_pct rate := by
  unfold min_forage_per_sheep
  split_ifs with hc
  · exact ⟨(min_eq_left hc).symm, hc⟩
  · exact ⟨(min_eq_right (le_of_not_le hc)).symm, le_rfl⟩

/-- Claim C7: the pasture-duration computation of lines 165-168 divides the
standing forage by the daily herd consumption whenever that consumption is
positive, and produces the infinite sentinel (never a division error) when
it is zero. -/
theorem C7_days_on_pasture (forage_val rate available forage_dm_pct : ℚ) :
    (0 < daily_forage_all_sheep forage_val rate →
      days_on_pasture (total_available_forage available forage_dm_pct)
          (daily_forage_all_sheep forage_val rate)
        = PastureDays.days (total_available_forage available forage_dm_pct
            / daily_forage_all_sheep forage_val rate)) ∧
    (daily_forage_all_sheep forage_val rate = 0 →
      days_on_pasture (total_available_forage available forage_dm_pct)
          (daily_forage_all_sheep forage_val rate)
        = PastureDays.infinite) := by
  constructor
  · intro h
    unfold days_on_pasture
    rw [if_pos h]
  · intro h
    unfold days_on_pasture
    rw [if_neg]
    rw [h]
    exact lt_irrefl 0

theorem C7_days_on_pasture_witness :
    days_on_pasture (total_available_forage 2000 90) (daily_forage_all_sheep 2 90)
        = PastureDays.days (total_available_forage 2000 90 / daily_forage_all_sheep 2 90) ∧
    days_on_pasture (total_available_forage 2000 90) (daily_forage_all_sheep 0 90)
        = PastureDays.infinite :=
  ⟨(C7_days_on_pasture 2 90 2000 90).1 (by norm_num [daily_forage_all_sheep]),
   (C7_days_on_pasture 0 90 2000 90).2 (by norm_num [daily_forage_all_sheep])⟩

/-- Claim C8: when the forage upper bound computes to a non-positive value
(for a pasture context with nonnegative standing forage and positive
stocking rate, and table rows with positive DMI and nonnegative dry-matter
percentage), both forage bounds degenerate to 0 and the model is still
built and handed to the solver rather than raising. -/
theorem C8_degenerate_bounds (s : NutritionStage) (fq : ForageStage)
    (available rate : ℚ)
    (hdmi : 0 < s.dm_intake) (hdm : 0 ≤ fq.dm) (hav : 0 ≤ available)
    (hr : 0 < rate)
    (h : max_forage_per_sheep s.dm_intake available fq.dm rate ≤ 0) :
    max_forage_per_sheep s.dm_intake available fq.dm rate = 0 ∧
    min_forage_per_sheep s.dm_intake
        (max_forage_per_sheep s.dm_intake available fq.dm rate) = 0 ∧
    (build_model current_nutrition_stage current_forage_stage available rate
        (supplements last4)).isSome = true := by
  have hq : 0 ≤ available * fq.dm / 100 / rate :=
    div_nonneg (div_nonneg (mul_nonneg hav hdm) (by norm_num)) hr.le
  have h0 : 0 ≤ max_forage_per_sheep s.dm_intake available fq.dm rate := by
    unfold max_forage_per_sheep
    exact le_min hdmi.le hq
  have hmax0 : max_forage_per_sheep s.dm_intake available fq.dm rate = 0 :=
    le_antisymm h h0
  refine ⟨hmax0, ?_, ?_⟩
  · rw [hmax0]
    unfold min_forage_per_sheep
    rw [if_neg]
    intro hc
    nlinarith
  · unfold build_model
    rw [show lookupNutrition current_nutrition_stage = some last4 from rfl]
    rw [show lookupForage current_forage_stage = some dry from rfl]
    simp [hr.ne']

theorem C8_degenerate_bounds_witness :
    max_forage_per_sheep last4.dm_intake 0 dry.dm sheep_per_acre = 0 ∧
    min_forage_per_sheep last4.dm_intake
        (max_forage_per_sheep last4.dm_intake 0 dry.dm sheep_per_acre) = 0 ∧
    (build_model current_nutrition_stage current_forage_stage 0 sheep_per_acre
        (supplements last4)).isSome = true :=
  C8_degenerate_bounds last4 dry 0 sheep_per_acre
    (by norm_num [last4]) (by norm_num [dry]) le_rfl
    (by norm_num [sheep_per_acre])
    (by norm_num [max_forage_per_sheep, min_def, last4, dry, sheep_per_acre])

/-- Claim C9 counterexample: the script contains no min/max validation of
the feed table, so a configuration in which the Molasses minimum intake
(2.0) exceeds its maximum intake (0.5) is NOT rejected before model
construction: the pipeline still produces a model, which is handed to the
solver.  This refutes the claim that every such configuration is detected
as a ConfigurationError before model construction. -/
theorem C9_no_min_max_validation :
    (badSupplements FeedName.Molasses).max_intake
        < (badSupplements FeedName.Molasses).min_intake ∧
    (build_model current_nutrition_stage current_forage_stage
        available_forage_per_acre sheep_per_acre badSupplements).isSome = true := by
  constructor
  · norm_num [badSupplements]
  · rfl

/-- Claim C9 amended: unknown nutrition-stage and forage-stage keys do make
the script die (KeyError) before any model is constructed, and a zero
stocking rate dies during bound computation (ZeroDivisionError); but a
negative stocking rate and a feed whose minimum intake exceeds its maximum
intake are not detected: the model is still built and handed to the
solver. -/
theorem C9_validation_amended :
    lookupNutrition "Bogus_Stage" = none ∧
    lookupForage "Bogus_Forage" = none ∧
    build_model "Bogus_Stage" current_forage_stage available_forage_per_acre
        sheep_per_acre (supplements last4) = none ∧
    build_model current_nutrition_stage "Bogus_Forage" available_forage_per_acre
        sheep_per_acre (supplements last4) = none ∧
    build_model current_nutrition_stage current_forage_stage
        available_forage_per_acre 0 (supplements last4) = none ∧
    (build_model current_nutrition_stage current_forage_stage
        available_forage_per_acre (-90) (supplements last4)).isSome = true := by
  refine ⟨rfl, rfl, rfl, rfl, ?_, ?_⟩
  · unfold build_model
    rw [show lookupNutrition current_nutrition_stage = some last4 from rfl]
    rw [show lookupForage current_forage_stage = some dry from rfl]
    simp
  · unfold build_model
    rw [show lookupNutrition current_nutrition_stage = some last4 from rfl]
    rw [show lookupForage current_forage_stage = some dry from rfl]
    norm_num

/-- Claim C10: the Molasses entry carries a positive minimum intake of 0.05
(line 76) imposed as the lower bound of its decision variable (line 93), so
every feasible point of the model includes at least 0.05 lbs/day of
Molasses: a zero-Molasses ration is never feasible. -/
theorem C10_molasses_always_fed (s : NutritionStage) (fq : ForageStage)
    (available rate : ℚ) (a : Assignment)
    (h : Feasible s fq available rate (supplements s) a) :
    0.05 ≤ a.intake FeedName.Molasses ∧ 0 < a.intake FeedName.Molasses := by
  have hb := (h.2.2.1 FeedName.Molasses).1
  have hm : (supplements s FeedName.Molasses).min_intake = 0.05 := rfl
  rw [hm] at hb
  refine ⟨hb, lt_of_lt_of_le (by norm_num) hb⟩

theorem C10_molasses_always_fed_witness :
    0.05 ≤ witnessA.intake FeedName.Molasses ∧
    0 < witnessA.intake FeedName.Molasses :=
  C10_molasses_always_fed last4 dry 2000 90 witnessA witnessA_feasible

end SheepFeeding
